import Mathlib

/-!
Shallow embedding of the curatore document-service routing core:
the triage planner (`app/services/triage_service.py`), the Docling
proxy (`app/services/docling_proxy_service.py`), the health tracker
(`app/services/docling_health_service.py`), the extraction dispatcher
(`app/api/v1/routers/extract.py`) and CSV generation
(`app/services/generation_service.py`).

External effects (PyMuPDF page inspection, HTTP responses, file stat,
DOCX archive parsing) are passed in as explicit observation values;
machine floats are modelled as exact rationals (all comparisons the code
performs are far from float rounding boundaries); Python exceptions are
modelled as `Except` / explicit outcome constructors.
-/

set_option maxRecDepth 4000

/-- Checks whether the first list is a prefix of the second, as a boolean. -/
def isPrefixList : List Char → List Char → Bool
  | [], _ => true
  | _ :: _, [] => false
  | a :: as, b :: bs => a = b && isPrefixList as bs

/-- Boolean substring test on character lists, modelling Python's `in` on strings. -/
def containsSub (pat : List Char) : List Char → Bool
  | [] => isPrefixList pat []
  | c :: tl => isPrefixList pat (c :: tl) || containsSub pat tl

/-- Python `str.lower()` (all inputs the service lowercases are ASCII). -/
def pyLower (s : String) : String := String.mk (s.data.map Char.toLower)

/-- Python `str.strip()`: drops leading and trailing whitespace. -/
def pyStrip (s : String) : String :=
  String.mk (((s.data.dropWhile Char.isWhitespace).reverse.dropWhile Char.isWhitespace).reverse)

/-- Python truthiness of an optional string (`None` and `""` are falsy). -/
def optTruthy : Option String → Bool
  | none => false
  | some s => s ≠ ""

/-- Exact product of two rationals, written so the kernel can evaluate it
(the library multiplication is sealed); provably equal to `a * b`. -/
def qMul (a b : ℚ) : ℚ := Rat.divInt (a.num * b.num) ((a.den : ℤ) * b.den)

/-- Exact difference of two rationals in kernel-evaluable form; provably
equal to `a - b`. -/
def qSub (a b : ℚ) : ℚ := Rat.divInt (a.num * b.den - b.num * a.den) ((a.den : ℤ) * b.den)

/-- Round a rational to the nearest integer, ties to even, as Python float
formatting with `:.0f` does.  `Int.fdiv q.num q.den` is the floor of `q`;
`2 * rnum` against `q.den` compares the fractional part with one half. -/
def roundHalfEven (q : ℚ) : ℤ :=
  let f : ℤ := Int.fdiv q.num q.den
  let rnum : ℤ := q.num - f * q.den
  if 2 * rnum < (q.den : ℤ) then f
  else if 2 * rnum > (q.den : ℤ) then f + 1
  else if f % 2 = 0 then f else f + 1

/-- Python `:.0f` formatting of a (nonnegative) float value. -/
def pyFmtF0 (q : ℚ) : String := toString (roundHalfEven q)

/-- Python `:.1f` formatting of a nonnegative float value. -/
def pyFmtF1 (q : ℚ) : String :=
  let n := roundHalfEven (qMul q 10)
  toString (n / 10) ++ "." ++ toString (n % 10)

/-- Lexicographic code-point comparison of character lists: the string
order Python's `sorted` uses. -/
def charListLe : List Char → List Char → Bool
  | [], _ => true
  | _ :: _, [] => false
  | a :: as, b :: bs => if a = b then charListLe as bs else decide (a < b)

/-- Python's `≤` on strings as a proposition. -/
def strLe (a b : String) : Prop := charListLe a.data b.data = true

instance : DecidableRel strLe :=
  fun a b => inferInstanceAs (Decidable (charListLe a.data b.data = true))

/-- Sorted-set view of a list of strings: Python's `sorted(set(xs))`. -/
def sortStrings (xs : List String) : List String :=
  List.insertionSort strLe xs.dedup

/-- First value bound to a key in an association list (Python dict lookup). -/
def lookupKey (k : String) : List (String × String) → Option String
  | [] => none
  | (k', v) :: tl => if k' = k then some v else lookupKey k tl

/-! ## Triage service data model (`triage_service.py`) -/

/-- File extension groups from the top of `triage_service.py`. -/
def PDF_EXTENSIONS : List String := [".pdf"]

/-- Office word-processing document extensions. -/
def OFFICE_DOCUMENT_EXTENSIONS : List String := [".docx", ".doc"]

/-- Office presentation extensions. -/
def OFFICE_PRESENTATION_EXTENSIONS : List String := [".pptx", ".ppt"]

/-- Office spreadsheet extensions. -/
def OFFICE_SPREADSHEET_EXTENSIONS : List String := [".xlsx", ".xls", ".xlsb"]

/-- Union of all Office extensions. -/
def OFFICE_EXTENSIONS : List String :=
  OFFICE_DOCUMENT_EXTENSIONS ++ OFFICE_PRESENTATION_EXTENSIONS ++ OFFICE_SPREADSHEET_EXTENSIONS

/-- Image extensions (standalone images are unsupported). -/
def IMAGE_EXTENSIONS : List String :=
  [".png", ".jpg", ".jpeg", ".gif", ".bmp", ".tiff", ".tif", ".webp"]

/-- Text-like extensions. -/
def TEXT_EXTENSIONS : List String :=
  [".txt", ".md", ".markdown", ".rst", ".csv", ".json", ".xml", ".html", ".htm"]

/-- The configurable settings the routing core reads (`config.py`). -/
structure Settings where
  DOCLING_SERVICE_URL : String
  PDF_BLOCK_THRESHOLD : ℕ
  PDF_IMAGE_THRESHOLD : ℕ
  PDF_PAGES_TO_ANALYZE : ℕ
  OFFICE_SIZE_THRESHOLD : ℕ
  DOCLING_TIMEOUT : ℕ
  deriving DecidableEq

/-- Triage-produced Docling parameter overrides (`docling_params` dict keys;
a `none` field models an absent key). -/
structure DoclingParams where
  do_ocr : Option Bool := none
  pdf_backend : Option String := none
  table_mode : Option String := none
  deriving DecidableEq

/-- The triage plan dict returned by `TriageService.triage`.  The
`triage_duration_ms` wall-clock stamp is not modelled (no claim touches it). -/
structure TriagePlan where
  file_type : String
  engine : String
  needs_ocr : Bool
  needs_layout : Bool
  complexity : String
  reason : String
  page_count : Option ℕ := none
  table_count : Option ℕ := none
  docling_params : Option DoclingParams := none
  deriving DecidableEq

/-- One layout block of a PDF page as reported by `page.get_text("dict")`:
its type tag and the horizontal extent of its bounding box. -/
structure PdfBlock where
  btype : ℕ
  x0 : ℚ
  x2 : ℚ
  deriving DecidableEq

/-- Observations PyMuPDF yields for one sampled PDF page: extracted text
length, layout blocks, embedded image count, the `find_tables` result
(`none` models the call raising), and the drawing-heuristic line count. -/
structure PageObs where
  textLen : ℕ
  blocks : List PdfBlock
  imageCount : ℕ
  findTables : Option ℕ
  drawingLineCount : ℕ
  pageWidth : ℚ
  deriving DecidableEq

/-- Aggregated per-document signals accumulated by the sampling loop. -/
structure PdfAgg where
  totalText : ℕ
  totalBlocks : ℕ
  totalImages : ℕ
  hasTables : Bool
  tableCount : ℕ
  hasMultiColumn : Bool
  deriving DecidableEq

/-- Initial accumulator of the PDF sampling loop. -/
def initPdfAgg : PdfAgg :=
  { totalText := 0, totalBlocks := 0, totalImages := 0,
    hasTables := false, tableCount := 0, hasMultiColumn := false }

/-- Geometric multi-column detection for one page (the block-position
heuristic in `_triage_pdf`). -/
def detectMultiColumn (p : PageObs) : Bool :=
  let tbs := p.blocks.filter (fun b => b.btype = 0)
  if tbs.length ≥ 4 then
    let w := p.pageWidth
    let hasLeft := tbs.any (fun b => decide (b.x0 < qMul w (mkRat 45 100)))
    let hasRight := tbs.any (fun b => decide (b.x0 > qMul w (mkRat 50 100)))
    if hasLeft && hasRight then
      (tbs.filter (fun b => decide (b.x0 > qMul w (mkRat 50 100)))).any
        (fun b => decide (qSub b.x2 b.x0 > qMul w (mkRat 20 100)))
    else false
  else false

/-- One iteration of the PDF page sampling loop in `_triage_pdf`. -/
def pdfPageStep (acc : PdfAgg) (p : PageObs) : PdfAgg :=
  let acc :=
    { acc with
      totalText := acc.totalText + p.textLen,
      totalBlocks := acc.totalBlocks + p.blocks.length,
      totalImages := acc.totalImages + p.imageCount }
  let acc :=
    match p.findTables with
    | some n => if n > 0 then { acc with hasTables := true, tableCount := acc.tableCount + n } else acc
    | none => if p.drawingLineCount > 20 then { acc with hasTables := true } else acc
  if acc.hasMultiColumn then acc else { acc with hasMultiColumn := detectMultiColumn p }

/-- Number of pages the analysis loop samples: `min(PDF_PAGES_TO_ANALYZE, total_pages)`. -/
def pdfPagesChecked (s : Settings) (pages : List PageObs) : ℕ :=
  min s.PDF_PAGES_TO_ANALYZE pages.length

/-- Aggregate signals over the sampled pages. -/
def pdfAgg (s : Settings) (pages : List PageObs) : PdfAgg :=
  (pages.take (pdfPagesChecked s pages)).foldl pdfPageStep initPdfAgg

/-- Average extracted-text length per sampled page (`avg_text_per_page`). -/
def avgTextPerPage (s : Settings) (pages : List PageObs) : ℚ :=
  let n := pdfPagesChecked s pages
  if n > 0 then mkRat (pdfAgg s pages).totalText n else 0

/-- Average block count per sampled page (`avg_blocks_per_page`). -/
def avgBlocksPerPage (s : Settings) (pages : List PageObs) : ℚ :=
  let n := pdfPagesChecked s pages
  if n > 0 then mkRat (pdfAgg s pages).totalBlocks n else 0

/-- Average embedded-image count per sampled page (`avg_images_per_page`). -/
def avgImagesPerPage (s : Settings) (pages : List PageObs) : ℚ :=
  let n := pdfPagesChecked s pages
  if n > 0 then mkRat (pdfAgg s pages).totalImages n else 0

/-- Outcome of attempting PyMuPDF analysis in `_triage_pdf`: the library
may be missing, the whole analysis may raise, or it yields page
observations (first constructor argument list = the document's pages). -/
inductive PdfAnalysis where
  | fitzUnavailable
  | failed (errMsg : String)
  | ok (pages : List PageObs)
  deriving DecidableEq

/-- The `_triage_image` branch: standalone images are unsupported. -/
def triageImage (ext : String) : TriagePlan :=
  { file_type := ext, engine := "unsupported", needs_ocr := false,
    needs_layout := false, complexity := "low",
    reason := "Standalone image files are not supported. Image OCR is only available within documents (e.g., scanned PDFs)." }

/-- The `_triage_pdf` branch. -/
def triagePdf (s : Settings) (ext : String) (docling_enabled : Bool)
    (pa : PdfAnalysis) : TriagePlan :=
  match pa with
  | .fitzUnavailable =>
      { file_type := ext,
        engine := if docling_enabled then "docling" else "fast_pdf",
        needs_ocr := false, needs_layout := false, complexity := "medium",
        reason := "PyMuPDF not available, using fallback routing" }
  | .failed e =>
      { file_type := ext,
        engine := if docling_enabled then "docling" else "fast_pdf",
        needs_ocr := false, needs_layout := true, complexity := "medium",
        reason := "PDF analysis failed (" ++ e ++ "), using cautious routing" }
  | .ok pages =>
      let agg := pdfAgg s pages
      let avgText := avgTextPerPage s pages
      let avgBlocks := avgBlocksPerPage s pages
      let avgImages := avgImagesPerPage s pages
      let needs_ocr := decide (avgText < 100)
      let is_complex_layout :=
        decide (avgBlocks > (s.PDF_BLOCK_THRESHOLD : ℚ)) ||
        decide (avgImages > (s.PDF_IMAGE_THRESHOLD : ℚ)) ||
        agg.hasTables || agg.hasMultiColumn
      let complexity :=
        if needs_ocr then "high" else if is_complex_layout then "medium" else "low"
      let engine :=
        if needs_ocr then "docling" else if is_complex_layout then "docling" else "fast_pdf"
      let reason :=
        if needs_ocr then
          "PDF needs OCR (avg " ++ pyFmtF0 avgText ++ " chars/page)"
        else if is_complex_layout then
          let reasons : List String :=
            (if decide (avgBlocks > (s.PDF_BLOCK_THRESHOLD : ℚ)) then [pyFmtF0 avgBlocks ++ " blocks/page"] else []) ++
            (if decide (avgImages > (s.PDF_IMAGE_THRESHOLD : ℚ)) then [pyFmtF0 avgImages ++ " images/page"] else []) ++
            (if agg.hasTables then ["tables detected (" ++ toString agg.tableCount ++ " found)"] else []) ++
            (if agg.hasMultiColumn then ["multi-column layout"] else [])
          "Complex PDF layout: " ++ String.intercalate ", " reasons
        else
          "Simple single-column text PDF (" ++ pyFmtF0 avgText ++ " chars/page, " ++ pyFmtF0 avgBlocks ++ " blocks/page)"
      let docling_params : DoclingParams :=
        { do_ocr := if needs_ocr then none else some false,
          pdf_backend := if pages.length > 50 then some "pypdfium2" else none,
          table_mode := some (if agg.hasTables then "accurate" else "fast") }
      { file_type := ext, engine := engine, needs_ocr := needs_ocr,
        needs_layout := is_complex_layout, complexity := complexity, reason := reason,
        page_count := some pages.length, table_count := some agg.tableCount,
        docling_params := some docling_params }

/-- Result of `_analyze_docx` when the archive parses. -/
structure DocxAnalysis where
  table_count : ℕ
  image_count : ℕ
  has_complex_tables : Bool
  deriving DecidableEq

/-- The DOCX content-aware routing step inside `_triage_office`: when the
file is a `.docx`, Docling is enabled, and the analysis yields complex
signals, it returns the docling plan; otherwise nothing. -/
def triageOfficeDocxPlan (ext : String) (docling_enabled : Bool)
    (docx : Option DocxAnalysis) (file_size : ℕ) : Option TriagePlan :=
  if ext = ".docx" ∧ docling_enabled then
    match docx with
    | some a =>
        if a.has_complex_tables || decide (a.image_count > 3) ||
            (decide (a.table_count > 3) && decide ((file_size : ℚ) > mkRat (5 * 1024 * 1024) 2)) then
          some { file_type := ext, engine := "docling", needs_ocr := false,
                 needs_layout := true, complexity := "medium",
                 reason := "DOCX content analysis: " ++ String.intercalate ", "
                   ((if a.has_complex_tables then ["complex tables (nested/merged)"] else []) ++
                    (if decide (a.image_count > 3) then [toString a.image_count ++ " images"] else []) ++
                    (if decide (a.table_count > 3) && decide ((file_size : ℚ) > mkRat (5 * 1024 * 1024) 2) then
                      [toString a.table_count ++ " tables in " ++
                        pyFmtF1 (mkRat file_size (1024 * 1024)) ++ "MB file"]
                     else [])) }
        else none
    | none => none
  else none

/-- The `_triage_office` branch.  `docx` is the `_analyze_docx` outcome
(`none` models a parse failure or a non-DOCX file); `statSize` is the
`file_path.stat().st_size` outcome (`none` models the call raising). -/
def triageOffice (s : Settings) (ext : String) (docling_enabled : Bool)
    (docx : Option DocxAnalysis) (statSize : Option ℕ) : TriagePlan :=
  let file_size : ℕ := statSize.getD 0
  let file_size_mb : ℚ := mkRat file_size (1024 * 1024)
  match triageOfficeDocxPlan ext docling_enabled docx file_size with
  | some p => p
  | none =>
      let is_complex := decide (file_size ≥ s.OFFICE_SIZE_THRESHOLD)
      if is_complex && docling_enabled then
        { file_type := ext, engine := "docling", needs_ocr := false,
          needs_layout := true, complexity := "medium",
          reason := "Large Office file (" ++ pyFmtF1 file_size_mb ++ "MB), using Docling for better layout" }
      else
        { file_type := ext, engine := "markitdown", needs_ocr := false,
          needs_layout := false, complexity := "low",
          reason := "Office file (" ++ pyFmtF1 file_size_mb ++ "MB), using MarkItDown" }

/-- The `_triage_text` branch. -/
def triageText (ext : String) : TriagePlan :=
  { file_type := ext, engine := "markitdown", needs_ocr := false,
    needs_layout := false, complexity := "low",
    reason := "Text-based file, using MarkItDown" }

/-- External observations one `triage` call consumes. -/
structure TriageWorld where
  pdf : PdfAnalysis
  docx : Option DocxAnalysis
  statSize : Option ℕ
  deriving DecidableEq

/-- The category dispatch of `triage` (everything before the downgrade pass). -/
def triageCore (s : Settings) (ext : String) (docling_enabled : Bool)
    (w : TriageWorld) : TriagePlan :=
  if ext ∈ IMAGE_EXTENSIONS then triageImage ext
  else if ext ∈ PDF_EXTENSIONS then triagePdf s ext docling_enabled w.pdf
  else if ext ∈ OFFICE_EXTENSIONS then triageOffice s ext docling_enabled w.docx w.statSize
  else if ext ∈ TEXT_EXTENSIONS then triageText ext
  else
    { file_type := ext, engine := "markitdown", needs_ocr := false,
      needs_layout := false, complexity := "low",
      reason := "Unknown file type " ++ ext ++ ", using markitdown as fallback" }

/-- The downgrade pass at the end of `triage`: when Docling is not enabled
a docling plan is replaced wholesale by a fast-engine plan. -/
def applyDowngrade (ext : String) (docling_enabled : Bool) (plan : TriagePlan) : TriagePlan :=
  if ¬docling_enabled ∧ plan.engine = "docling" then
    if ext ∈ PDF_EXTENSIONS then
      { file_type := ext, engine := "fast_pdf", needs_ocr := plan.needs_ocr,
        needs_layout := plan.needs_layout, complexity := plan.complexity,
        reason := "Docling disabled, falling back from " ++ plan.engine ++ " to fast_pdf" }
    else
      { file_type := ext, engine := "markitdown", needs_ocr := plan.needs_ocr,
        needs_layout := plan.needs_layout, complexity := plan.complexity,
        reason := "Docling disabled, falling back from " ++ plan.engine ++ " to markitdown" }
  else plan

/-- Identification of the uploaded file as `triage` sees it: the path
suffix and the `mimetypes.guess_extension` result when a MIME type was
supplied (with Python's `or ""` already applied). -/
structure FileInput where
  suffix : String
  mimeGuess : Option String
  deriving DecidableEq

/-- Extension resolution at the top of `triage`. -/
def effectiveExt (f : FileInput) : String :=
  let ext := pyLower f.suffix
  if ext = "" then (f.mimeGuess.getD "") else ext

/-- Resolution of the `docling_enabled` argument (`None` falls back to
whether `DOCLING_SERVICE_URL` is set). -/
def doclingEnabledOf (s : Settings) (arg : Option Bool) : Bool :=
  arg.getD (s.DOCLING_SERVICE_URL ≠ "")

/-- The full `TriageService.triage` procedure (duration stamping aside). -/
def triage (s : Settings) (f : FileInput) (arg : Option Bool) (w : TriageWorld) : TriagePlan :=
  let docling_enabled := doclingEnabledOf s arg
  let ext := effectiveExt f
  applyDowngrade ext docling_enabled (triageCore s ext docling_enabled w)

/-! ## Docling health tracker (`docling_health_service.py`) -/

/-- State of `DoclingHealthService` together with the configuration it
reads (monotonic clock values are rationals in seconds). -/
structure HealthState where
  serviceURL : String
  ttl : ℚ
  reachableFlag : Option Bool
  lastCheckTime : Option ℚ
  lastError : Option String
  deriving DecidableEq

/-- The `is_configured` property: the service URL is set. -/
def isConfigured (h : HealthState) : Bool := h.serviceURL ≠ ""

/-- The `docling_enabled` property, exactly as coded: unconfigured is
false, never-checked is optimistically true, otherwise the cached flag. -/
def docling_enabled (h : HealthState) : Bool :=
  if ¬isConfigured h then false
  else
    match h.reachableFlag with
    | none => true
    | some b => b

/-- The `needs_recheck` method at monotonic time `now`. -/
def needs_recheck (now : ℚ) (h : HealthState) : Bool :=
  if ¬isConfigured h then false
  else
    match h.lastCheckTime with
    | none => true
    | some t => decide (qSub now t ≥ h.ttl)

/-- The `invalidate` method: clears only the last-check timestamp. -/
def invalidate (h : HealthState) : HealthState :=
  { h with lastCheckTime := none }

/-! ## Docling proxy (`docling_proxy_service.py`) -/

/-- The `(content, method, ocr_used, page_count)` tuple every extraction
backend returns. -/
structure ExtractTuple where
  content : String
  method : String
  ocr_used : Bool
  page_count : Option ℕ
  deriving DecidableEq

/-- The shared failure sentinel `("", "error", False, None)`. -/
def doclingSentinel : ExtractTuple :=
  { content := "", method := "error", ocr_used := false, page_count := none }

/-- Effective parameter set `_get_docling_params` builds: fixed defaults,
the `pipeline` key only for the non-alpha API, then triage overrides
applied for keys already present (plus `pdf_backend`). -/
structure EffParams where
  to_formats : List String
  image_export_mode : String
  do_ocr : Bool
  ocr_engine : String
  table_mode : String
  include_images : Bool
  pipeline : Option String
  pdf_backend : Option String
  deriving DecidableEq

/-- The `_get_docling_params` function. -/
def getDoclingParams (endpoint : Option String) (ov : Option DoclingParams) : EffParams :=
  let endpointPath := endpoint.getD "/v1/convert/file"
  let isAlpha := containsSub "v1alpha".data endpointPath.data
  let base : EffParams :=
    { to_formats := ["md"], image_export_mode := "placeholder", do_ocr := true,
      ocr_engine := "easyocr", table_mode := "accurate", include_images := false,
      pipeline := if isAlpha then none else some "standard", pdf_backend := none }
  match ov with
  | none => base
  | some o =>
      { base with
        do_ocr := o.do_ocr.getD base.do_ocr,
        table_mode := o.table_mode.getD base.table_mode,
        pdf_backend := o.pdf_backend }

/-- HTTP observations one `_detect_endpoint` call consumes: the
`openapi.json` response (`none` models the request raising; otherwise
status code and the keys of the `paths` object), and per-endpoint
`OPTIONS` probe results (`none` models the request raising). -/
structure DetectWorld where
  openapi : Option (ℕ × List String)
  probe : String → Option ℕ

/-- The probing loop at the end of `_detect_endpoint`: returns the first
candidate whose probe completes with a status other than 404, plus the
number of probe requests attempted. -/
def probeLoop (probe : String → Option ℕ) : List String → Option String × ℕ
  | [] => (none, 0)
  | e :: rest =>
      match probe e with
      | none => let r := probeLoop probe rest; (r.1, r.2 + 1)
      | some code =>
          if code ≠ 404 then (some e, 1)
          else let r := probeLoop probe rest; (r.1, r.2 + 1)

/-- Endpoint selection from the `openapi.json` query in `_detect_endpoint`:
a raised request or a non-200 status yields nothing, else the first known
path present in the spec. -/
def openapiSelectedEndpoint (w : DetectWorld) : Option String :=
  match w.openapi with
  | none => none
  | some (status, paths) =>
      if status = 200 then
        if "/v1/convert/file" ∈ paths then some "/v1/convert/file"
        else if "/v1alpha/convert/file" ∈ paths then some "/v1alpha/convert/file"
        else none
      else none

/-- The `_detect_endpoint` function as a state transformer on the
module-level cache.  Returns (detected endpoint, new cache value, number
of HTTP requests performed). -/
def detectEndpoint (serviceURL : String) (w : DetectWorld) (cache : Option String) :
    Option String × Option String × ℕ :=
  if optTruthy cache then (cache, cache, 0)
  else if containsSub "v1alpha".data (pyLower serviceURL).data then
    (some "/v1alpha/convert/file", some "/v1alpha/convert/file", 0)
  else
    match openapiSelectedEndpoint w with
    | some e => (some e, some e, 1)
    | none =>
        let r := probeLoop w.probe ["/v1/convert/file", "/v1alpha/convert/file"]
        match r.1 with
        | some e => (some e, some e, 1 + r.2)
        | none => (none, cache, 1 + r.2)

/-- The `document` object of a JSON response payload: the `md_content`
and `text_content` fields when they are present and are strings. -/
structure DocField where
  md_content : Option String
  text_content : Option String
  deriving DecidableEq

/-- A completed HTTP response of the conversion service as
`extract_via_docling` consumes it: the (already lowercased) content type,
the parsed `document` object when the body is JSON with one, and the raw
body text. -/
structure DoclingResponse where
  contentType : String
  payloadDocument : Option DocField
  rawText : String
  deriving DecidableEq

/-- Content selection from a response body: a JSON envelope prefers a
non-blank `md_content`, then a non-blank `text_content`; any other
content type uses the raw body text. -/
def parseContent (r : DoclingResponse) : Option String :=
  if containsSub "application/json".data (pyLower r.contentType).data then
    match r.payloadDocument with
    | none => none
    | some d =>
        match d.md_content with
        | some m =>
            if pyStrip m ≠ "" then some m
            else
              match d.text_content with
              | some t => if pyStrip t ≠ "" then some t else none
              | none => none
        | none =>
            match d.text_content with
            | some t => if pyStrip t ≠ "" then some t else none
            | none => none
  else some r.rawText

/-- What one iteration of the retry loop in `extract_via_docling`
observes: a timeout, a `raise_for_status` error, any other exception, the
(unreachable in practice) no-response path, or a completed 2xx response on
the given endpoint. -/
inductive AttemptOutcome where
  | timeout
  | httpStatusError
  | otherError
  | noResponse
  | response (endpoint : String) (r : DoclingResponse)
  deriving DecidableEq

/-- The retry loop of `extract_via_docling`: one list element per loop
iteration (the list has `max_retries + 1` elements in the source; running
out of elements is the loop falling through to the final sentinel
return). -/
def runAttempts (ov : Option DoclingParams) : List AttemptOutcome → ExtractTuple
  | [] => doclingSentinel
  | o :: rest =>
      match o with
      | .timeout => if rest.isEmpty then doclingSentinel else runAttempts ov rest
      | .httpStatusError => doclingSentinel
      | .otherError => if rest.isEmpty then doclingSentinel else runAttempts ov rest
      | .noResponse => doclingSentinel
      | .response endpoint r =>
          match parseContent r with
          | some c =>
              if pyStrip c ≠ "" then
                { content := c, method := "docling",
                  ocr_used := (getDoclingParams (some endpoint) ov).do_ocr,
                  page_count := none }
              else runAttempts ov rest
          | none => runAttempts ov rest

/-- The `extract_via_docling` entry point: unconfigured URL short-circuits
to the sentinel, otherwise the retry loop runs over the per-attempt
observations. -/
def extract_via_docling (serviceURL : String) (ov : Option DoclingParams)
    (attempts : List AttemptOutcome) : ExtractTuple :=
  if serviceURL = "" then doclingSentinel
  else runAttempts ov attempts

/-! ## Extraction dispatcher (`api/v1/routers/extract.py`) -/

/-- The three extraction backends the route dispatches to, as black boxes
returning the uniform tuple (the docling backend receives the plan's
`docling_params`). -/
structure Backends where
  fast_pdf : ExtractTuple
  markitdown : ExtractTuple
  docling : Option DoclingParams → ExtractTuple

/-- The body of a successful `ExtractionResult` response (the `triage`
field echoes the plan; `elapsed_ms` wall-clock metadata is not modelled). -/
structure ApiResult where
  filename : String
  content_markdown : String
  content_chars : ℕ
  method : String
  ocr_used : Bool
  page_count : Option ℕ
  metadata : List (String × String)
  triageEcho : TriagePlan
  deriving DecidableEq

/-- Outcome of the extract route: an `HTTPException` with status and
detail, or a success body. -/
inductive RouteResponse where
  | clientError (status : ℕ) (detail : String)
  | ok (r : ApiResult)
  deriving DecidableEq

/-- Engine resolution in the route: a present, non-empty, non-"auto"
query value wins, else the plan's engine. -/
def selectedEngine (plan : TriagePlan) (engineParam : Option String) : String :=
  match engineParam with
  | some e => if e ≠ "" ∧ e ≠ "auto" then e else plan.engine
  | none => plan.engine

/-- Backend selection in the route body: fast_pdf, then docling (fed the
plan's docling_params), then markitdown for everything else. -/
def backendFor (sel : String) (plan : TriagePlan) (b : Backends) : ExtractTuple :=
  if sel = "fast_pdf" then b.fast_pdf
  else if sel = "docling" then b.docling plan.docling_params
  else b.markitdown

/-- Response construction after the backend ran: empty content raises
HTTP 422, otherwise the success body is assembled. -/
def respondWith (plan : TriagePlan) (filename uploadPath requestId : String)
    (docMeta : String → String → List (String × String)) (t : ExtractTuple) : RouteResponse :=
  if t.content = "" then
    .clientError 422 ("No text could be extracted from this file. Request ID: " ++ requestId)
  else
    .ok { filename := filename, content_markdown := t.content,
          content_chars := t.content.length, method := t.method,
          ocr_used := t.ocr_used, page_count := t.page_count,
          metadata := [("upload_path", uploadPath), ("request_id", requestId)] ++ docMeta t.content t.method,
          triageEcho := plan }

/-- The dispatch-and-respond portion of the `extract` route (after the
upload is saved and triage has produced `plan`).  `docMeta` abstracts
`extract_document_metadata`, a function of the extracted content and
method. -/
def extractRoute (plan : TriagePlan) (engineParam : Option String) (b : Backends)
    (filename uploadPath requestId : String)
    (docMeta : String → String → List (String × String)) : RouteResponse :=
  if selectedEngine plan engineParam = "unsupported" then
    .clientError 422 ("Unsupported file format: " ++ plan.file_type ++ ". Request ID: " ++ requestId)
  else
    respondWith plan filename uploadPath requestId docMeta
      (backendFor (selectedEngine plan engineParam) plan b)

/-! ## CSV generation (`generation_service.py`) -/

/-- One CSV input row: a Python dict as an association list. -/
abbrev CsvRow := List (String × String)

/-- Python exception classes distinguished by `generate_csv`. -/
inductive PyError where
  | valueError (msg : String)
  | runtimeError (msg : String)
  deriving DecidableEq

/-- Message carried by an exception, as `str(e)` renders it. -/
def pyErrMsg : PyError → String
  | .valueError m => m
  | .runtimeError m => m

/-- The generated CSV document: BOM flag, header columns, and each row
rendered against the header (missing keys written as empty cells, extras
ignored as `extrasaction="ignore"` does). -/
structure CsvDoc where
  bom : Bool
  columns : List String
  renderedRows : List (List String)
  deriving DecidableEq

/-- The body of the `try` block of `generate_csv`: raises `ValueError`
when both the data and the columns are absent, else auto-detects columns
as the sorted set of all row keys. -/
def generate_csv_inner (data : List CsvRow) (columns : Option (List String))
    (include_bom : Bool) : Except PyError CsvDoc :=
  if data = [] ∧ columns = none then
    .error (.valueError "Cannot generate CSV: no data or columns provided")
  else
    let cols :=
      match columns with
      | some cs => cs
      | none =>
          if data ≠ [] then sortStrings (data.flatMap (fun r => r.map Prod.fst))
          else []
    .ok { bom := include_bom, columns := cols,
          renderedRows := data.map (fun r => cols.map (fun c => (lookupKey c r).getD "")) }

/-- The `generate_csv` method: its `except Exception` handler re-wraps
every internal error as a `RuntimeError`. -/
def generate_csv (data : List CsvRow) (columns : Option (List String))
    (include_bom : Bool) : Except PyError CsvDoc :=
  match generate_csv_inner data columns include_bom with
  | .ok out => .ok out
  | .error e => .error (.runtimeError ("CSV generation failed: " ++ pyErrMsg e))

/-! ## Concrete fixtures used by witnesses and counterexamples -/

/-- Default settings of `config.py` with the Docling URL configured. -/
def sampleSettings : Settings :=
  { DOCLING_SERVICE_URL := "http://docling:8080", PDF_BLOCK_THRESHOLD := 50,
    PDF_IMAGE_THRESHOLD := 3, PDF_PAGES_TO_ANALYZE := 3,
    OFFICE_SIZE_THRESHOLD := 5 * 1024 * 1024, DOCLING_TIMEOUT := 300 }

/-- A page with almost no text layer (a scanned page): 20 characters. -/
def scanPage : PageObs :=
  { textLen := 20, blocks := [⟨0, 72, 200⟩], imageCount := 0,
    findTables := some 0, drawingLineCount := 0, pageWidth := 612 }

/-- A simple text page: one column, plenty of extractable text. -/
def simplePage : PageObs :=
  { textLen := 1500, blocks := [⟨0, 72, 540⟩, ⟨0, 72, 540⟩], imageCount := 0,
    findTables := some 0, drawingLineCount := 0, pageWidth := 612 }

/-- Observations for a one-page scanned PDF. -/
def scanWorld : TriageWorld := { pdf := .ok [scanPage], docx := none, statSize := none }

/-- Observations for a one-page simple text PDF. -/
def simpleWorld : TriageWorld := { pdf := .ok [simplePage], docx := none, statSize := none }

/-- An uploaded file named with a `.pdf` suffix. -/
def pdfFile : FileInput := { suffix := ".pdf", mimeGuess := none }

/-- An uploaded file named with a `.txt` suffix. -/
def txtFile : FileInput := { suffix := ".txt", mimeGuess := none }

/-- A successful JSON conversion response from the Docling service. -/
def okDoclingResp : DoclingResponse :=
  { contentType := "application/json",
    payloadDocument := some { md_content := some "# Converted document", text_content := none },
    rawText := "" }

/-- Concrete backends for dispatcher runs: the docling backend is the
embedded proxy run against a single successful response. -/
def cBackends : Backends :=
  { fast_pdf := { content := "fast pdf text", method := "fast_pdf", ocr_used := false, page_count := some 1 },
    markitdown := { content := "converted markdown", method := "markitdown", ocr_used := false, page_count := none },
    docling := fun dp =>
      extract_via_docling "http://docling:8080" dp [.response "/v1/convert/file" okDoclingResp] }

/-- Backends whose docling run fails every attempt (the mocked failure of
`test_extract_fallback.py`). -/
def failBackends : Backends :=
  { fast_pdf := { content := "Hello fallback world", method := "fast_pdf", ocr_used := false, page_count := some 1 },
    markitdown := { content := "converted markdown", method := "markitdown", ocr_used := false, page_count := none },
    docling := fun _ => doclingSentinel }

/-- Trivial document-metadata extractor for dispatcher runs. -/
def noMeta : String → String → List (String × String) := fun _ _ => []

/-- Spec example rows for CSV generation. -/
def csvRows : List CsvRow :=
  [[("name", "Alice"), ("age", "30")], [("name", "Bob"), ("age", "25")]]

/-- The CSV document generated from the spec example rows. -/
def csvOut : CsvDoc :=
  { bom := true, columns := ["age", "name"], renderedRows := [["30", "Alice"], ["25", "Bob"]] }

/-! ## Observation helpers for dispatcher responses -/

/-- The `ocr_used` flag of a successful response. -/
def routeOcrUsed : RouteResponse → Option Bool
  | .clientError _ _ => none
  | .ok r => some r.ocr_used

/-- Equality of two dispatcher responses on everything except the echoed
triage record: status and detail for errors; filename, content, method,
OCR flag, page count and metadata for successes. -/
def sameExtraction : RouteResponse → RouteResponse → Bool
  | .clientError s1 d1, .clientError s2 d2 => s1 = s2 && d1 = d2
  | .ok r1, .ok r2 =>
      r1.filename = r2.filename && r1.content_markdown = r2.content_markdown &&
      r1.content_chars = r2.content_chars && r1.method = r2.method &&
      r1.ocr_used = r2.ocr_used && r1.page_count = r2.page_count &&
      r1.metadata = r2.metadata
  | _, _ => false

/-- A health state whose last completed check failed. -/
def sampleHealth : HealthState :=
  { serviceURL := "http://docling:8080", ttl := 60, reachableFlag := some false,
    lastCheckTime := some 500, lastError := some "Connection refused" }

/-- Observations where no file category analysis applies. -/
def emptyWorld : TriageWorld := { pdf := .fitzUnavailable, docx := none, statSize := none }

/-- The plan triage produces for the one-page scanned PDF with Docling
enabled (routes to docling, OCR kept on). -/
def scanPlan : TriagePlan := triage sampleSettings pdfFile (some true) scanWorld

/-- The plan triage produces for the one-page simple text PDF with
Docling enabled (routes to fast_pdf, OCR disabled in the overrides). -/
def simplePlan : TriagePlan := triage sampleSettings pdfFile (some true) simpleWorld

/-- The plan triage produces for a text file. -/
def textPlan : TriagePlan := triage sampleSettings txtFile (some true) emptyWorld

/-- Detection-world fixture: the OpenAPI request raises, the first probe
reports 404, the second completes with 200. -/
def cDetectWorld : DetectWorld :=
  { openapi := none,
    probe := fun e => if e = "/v1/convert/file" then some 404 else some 200 }

/-- An uploaded file named with a `.png` suffix. -/
def pngFile : FileInput := { suffix := ".png", mimeGuess := none }

/-- The plan triage produces for a standalone image. -/
def imagePlan : TriagePlan := triage sampleSettings pngFile (some true) emptyWorld

/-! ## Claim theorems -/

/-- C8: the health tracker's availability query returns true exactly when
the service is configured and (no health check has ever completed or the
most recent completed check succeeded). -/
theorem C8_docling_enabled_optimistic (h : HealthState) :
    docling_enabled h = true ↔
      (isConfigured h = true ∧ (h.reachableFlag = none ∨ h.reachableFlag = some true)) := by
  unfold docling_enabled
  rcases hr : h.reachableFlag with _ | b
  · by_cases hc : isConfigured h = true <;> simp [hc, hr]
  · cases b <;> by_cases hc : isConfigured h = true <;> simp [hc, hr]

/-- C9: `invalidate` clears only the last-check timestamp, leaving the
cached reachability flag and last error unchanged, so `docling_enabled`
is unchanged, and a recheck becomes due whenever the service is
configured. -/
theorem C9_invalidate_frame (h : HealthState) :
    (invalidate h).reachableFlag = h.reachableFlag ∧
    (invalidate h).lastError = h.lastError ∧
    (invalidate h).serviceURL = h.serviceURL ∧
    (invalidate h).ttl = h.ttl ∧
    (invalidate h).lastCheckTime = none ∧
    docling_enabled (invalidate h) = docling_enabled h ∧
    (∀ now, isConfigured h = true → needs_recheck now (invalidate h) = true) := by
  refine ⟨rfl, rfl, rfl, rfl, rfl, rfl, ?_⟩
  intro now hc
  unfold needs_recheck
  rw [show isConfigured (invalidate h) = true from hc]
  simp [invalidate]

/-- C9 witness: on a configured state last seen unreachable, `invalidate`
leaves availability unchanged and makes a recheck due. -/
theorem C9_invalidate_frame_witness :
    docling_enabled (invalidate sampleHealth) = docling_enabled sampleHealth ∧
    needs_recheck 501 (invalidate sampleHealth) = true :=
  ⟨(C9_invalidate_frame sampleHealth).2.2.2.2.2.1,
   (C9_invalidate_frame sampleHealth).2.2.2.2.2.2 501 (by decide)⟩

/-- Totality of the code-point order on character lists. -/
theorem charListLe_total : ∀ a b : List Char, charListLe a b = true ∨ charListLe b a = true := by
  intro a
  induction a with
  | nil => intro b; left; rfl
  | cons x xs ih =>
      intro b
      cases b with
      | nil => right; rfl
      | cons y ys =>
          by_cases hxy : x = y
          · subst hxy
            rcases ih ys with h | h
            · left; simpa [charListLe] using h
            · right; simpa [charListLe] using h
          · rcases lt_trichotomy x y with h | h | h
            · left; simp [charListLe, hxy, h]
            · exact absurd h hxy
            · right
              simp [charListLe, Ne.symm hxy, h]

/-- Transitivity of the code-point order on character lists. -/
theorem charListLe_trans :
    ∀ a b c : List Char, charListLe a b = true → charListLe b c = true → charListLe a c = true := by
  intro a
  induction a with
  | nil => intro b c _ _; rfl
  | cons x xs ih =>
      intro b c hab hbc
      cases b with
      | nil => simp [charListLe] at hab
      | cons y ys =>
          cases c with
          | nil => simp [charListLe] at hbc
          | cons z zs =>
              by_cases hxy : x = y <;> by_cases hyz : y = z
              · subst hxy; subst hyz
                simp only [charListLe, if_pos rfl] at hab hbc ⊢
                exact ih ys zs hab hbc
              · subst hxy
                simp only [charListLe, if_neg hyz] at hbc
                simp [charListLe, hyz, of_decide_eq_true hbc]
              · subst hyz
                simp only [charListLe, if_neg hxy] at hab
                simp [charListLe, hxy, of_decide_eq_true hab]
              · simp only [charListLe, if_neg hxy] at hab
                simp only [charListLe, if_neg hyz] at hbc
                have hxz : x < z := lt_trans (of_decide_eq_true hab) (of_decide_eq_true hbc)
                simp [charListLe, ne_of_lt hxz, hxz]

/-- C10: with empty data and no columns, `generate_csv` raises
`RuntimeError` (the internal `ValueError` is caught and re-wrapped, so
callers never observe a `ValueError`) and never returns bytes; every
error it raises is a `RuntimeError`; with non-empty data and the columns
argument omitted, the output header is the sorted union of all row keys. -/
theorem C10_generate_csv_contract :
    (∀ b, generate_csv [] none b =
        .error (.runtimeError "CSV generation failed: Cannot generate CSV: no data or columns provided")) ∧
    (∀ data cols b e, generate_csv data cols b = .error e → ∃ m, e = PyError.runtimeError m) ∧
    (∀ data b out, data ≠ [] → generate_csv data none b = .ok out →
      List.Sorted strLe out.columns ∧ out.columns.Nodup ∧
        (∀ k, k ∈ out.columns ↔ ∃ r ∈ data, k ∈ r.map Prod.fst)) := by
  refine ⟨fun b => rfl, ?_, ?_⟩
  · intro data cols b e h
    unfold generate_csv at h
    cases hi : generate_csv_inner data cols b with
    | ok out => rw [hi] at h; cases h
    | error e' => rw [hi] at h; cases h; exact ⟨_, rfl⟩
  · intro data b out hne hok
    unfold generate_csv generate_csv_inner at hok
    rw [if_neg (fun hcon => hne hcon.1), if_pos hne] at hok
    have hcols : out.columns = sortStrings (data.flatMap (fun r => r.map Prod.fst)) := by
      cases hok; rfl
    letI : IsTotal String strLe :=
      ⟨fun a b => by
        rcases charListLe_total a.data b.data with h | h
        · exact Or.inl h
        · exact Or.inr h⟩
    letI : IsTrans String strLe :=
      ⟨fun a b c hab hbc => charListLe_trans a.data b.data c.data hab hbc⟩
    rw [hcols]
    refine ⟨List.sorted_insertionSort strLe _, ?_, ?_⟩
    · exact ((List.perm_insertionSort strLe _).nodup_iff).mpr (List.nodup_dedup _)
    · intro k
      rw [sortStrings, List.mem_insertionSort, List.mem_dedup, List.mem_flatMap]

/-- C10 witness: on the spec example rows with no explicit columns, the
header is the sorted key union (age before name), with no duplicates. -/
theorem C10_generate_csv_contract_witness :
    List.Sorted strLe csvOut.columns ∧ csvOut.columns.Nodup ∧
      (∀ k, k ∈ csvOut.columns ↔ ∃ r ∈ csvRows, k ∈ r.map Prod.fst) :=
  C10_generate_csv_contract.2.2 csvRows true csvOut (by decide) rfl

/-- C3: every `extract_via_docling` outcome is either the shared failure
sentinel `("", "error", False, None)` or a success whose method is
"docling" and whose content is not whitespace-only; in particular a
response with empty or whitespace-only content is never returned as a
success, and exceptions are absorbed into per-attempt outcomes by
construction. -/
theorem C3_docling_failure_sentinel (url : String) (ov : Option DoclingParams)
    (attempts : List AttemptOutcome) :
    extract_via_docling url ov attempts = doclingSentinel ∨
      ((extract_via_docling url ov attempts).method = "docling" ∧
        pyStrip (extract_via_docling url ov attempts).content ≠ "") := by
  unfold extract_via_docling
  by_cases hu : url = ""
  · simp [hu]
  · rw [if_neg hu]
    induction attempts with
    | nil => exact Or.inl rfl
    | cons o rest ih =>
        cases o with
        | timeout =>
            by_cases hr : rest.isEmpty = true
            · exact Or.inl (by simp [runAttempts, hr])
            · simpa [runAttempts, hr] using ih
        | httpStatusError => exact Or.inl rfl
        | otherError =>
            by_cases hr : rest.isEmpty = true
            · exact Or.inl (by simp [runAttempts, hr])
            · simpa [runAttempts, hr] using ih
        | noResponse => exact Or.inl rfl
        | response ep r =>
            cases hp : parseContent r with
            | none => simp only [runAttempts, hp]; exact ih
            | some c =>
                by_cases hc : pyStrip c ≠ ""
                · refine Or.inr ⟨?_, ?_⟩
                  · simp [runAttempts, hp, hc]
                  · simp only [runAttempts, hp]
                    rw [if_pos hc]
                    exact hc
                · simpa [runAttempts, hp, hc] using ih

/-- Projections of the PDF triage plan when analysis succeeded and the
sampled text average is below the OCR threshold. -/
theorem triagePdf_ok_proj (s : Settings) (ext : String) (de : Bool) (pages : List PageObs)
    (h : avgTextPerPage s pages < 100) :
    (triagePdf s ext de (.ok pages)).needs_ocr = true ∧
    (triagePdf s ext de (.ok pages)).complexity = "high" ∧
    (triagePdf s ext de (.ok pages)).engine = "docling" := by
  have hd : decide (avgTextPerPage s pages < 100) = true := decide_eq_true h
  refine ⟨?_, ?_, ?_⟩ <;> (unfold triagePdf; simp [hd])

/-- The downgrade pass never changes the OCR flag, layout flag or
complexity tier. -/
theorem applyDowngrade_preserves (ext : String) (de : Bool) (p : TriagePlan) :
    (applyDowngrade ext de p).needs_ocr = p.needs_ocr ∧
    (applyDowngrade ext de p).complexity = p.complexity ∧
    (applyDowngrade ext de p).needs_layout = p.needs_layout := by
  unfold applyDowngrade
  split_ifs <;> simp

/-- With Docling enabled the downgrade pass is the identity. -/
theorem applyDowngrade_enabled (ext : String) (p : TriagePlan) :
    applyDowngrade ext true p = p := by
  unfold applyDowngrade
  rw [if_neg]
  simp

/-- Dispatch of the category chain for a `.pdf` extension. -/
theorem triageCore_pdf (s : Settings) (de : Bool) (w : TriageWorld) :
    triageCore s ".pdf" de w = triagePdf s ".pdf" de w.pdf := by
  unfold triageCore
  rw [if_neg (by decide), if_pos (by decide)]

/-- C5: for a PDF whose structural analysis succeeds with average sampled
text below 100 characters per page, the plan needs OCR and is high
complexity, and with the advanced engine available it routes to docling,
regardless of the layout signals. -/
theorem C5_pdf_ocr_dominates (s : Settings) (f : FileInput) (arg : Option Bool)
    (w : TriageWorld) (pages : List PageObs)
    (hext : effectiveExt f = ".pdf") (hok : w.pdf = .ok pages)
    (havg : avgTextPerPage s pages < 100) :
    (triage s f arg w).needs_ocr = true ∧
    (triage s f arg w).complexity = "high" ∧
    (doclingEnabledOf s arg = true → (triage s f arg w).engine = "docling") := by
  rw [show triage s f arg w = applyDowngrade (effectiveExt f) (doclingEnabledOf s arg)
      (triageCore s (effectiveExt f) (doclingEnabledOf s arg) w) from rfl]
  rw [hext, triageCore_pdf, hok]
  have hp := triagePdf_ok_proj s ".pdf" (doclingEnabledOf s arg) pages havg
  have hpre := applyDowngrade_preserves ".pdf" (doclingEnabledOf s arg)
    (triagePdf s ".pdf" (doclingEnabledOf s arg) (.ok pages))
  refine ⟨hpre.1.trans hp.1, hpre.2.1.trans hp.2.1, ?_⟩
  intro hda
  rw [hda, applyDowngrade_enabled]
  exact (triagePdf_ok_proj s ".pdf" true pages havg).2.2

/-- C5 witness: a one-page PDF with a 20-character text layer routes to
docling with OCR needed and high complexity. -/
theorem C5_pdf_ocr_dominates_witness :
    (triage sampleSettings pdfFile (some true) scanWorld).needs_ocr = true ∧
    (triage sampleSettings pdfFile (some true) scanWorld).complexity = "high" ∧
    (triage sampleSettings pdfFile (some true) scanWorld).engine = "docling" :=
  have h := C5_pdf_ocr_dominates sampleSettings pdfFile (some true) scanWorld [scanPage]
    (by decide) rfl (by decide)
  ⟨h.1, h.2.1, h.2.2 rfl⟩

/-- The PDF branch only ever selects docling or fast_pdf. -/
theorem triagePdf_engine (s : Settings) (ext : String) (de : Bool) (pa : PdfAnalysis) :
    (triagePdf s ext de pa).engine = "docling" ∨ (triagePdf s ext de pa).engine = "fast_pdf" := by
  cases pa with
  | fitzUnavailable => cases de <;> simp [triagePdf]
  | failed e => cases de <;> simp [triagePdf]
  | ok pages =>
      cases hb1 : decide (avgTextPerPage s pages < 100) with
      | true => left; simp [triagePdf, hb1]
      | false =>
          cases hb2 : (decide (avgBlocksPerPage s pages > (s.PDF_BLOCK_THRESHOLD : ℚ)) ||
              decide (avgImagesPerPage s pages > (s.PDF_IMAGE_THRESHOLD : ℚ)) ||
              (pdfAgg s pages).hasTables || (pdfAgg s pages).hasMultiColumn) with
          | true => left; simp [triagePdf, hb1, hb2]
          | false => right; simp [triagePdf, hb1, hb2]

/-- The DOCX content-aware step only ever yields a docling plan. -/
theorem triageOfficeDocxPlan_engine (ext : String) (de : Bool) (docx : Option DocxAnalysis)
    (fs : ℕ) (p : TriagePlan) (h : triageOfficeDocxPlan ext de docx fs = some p) :
    p.engine = "docling" := by
  unfold triageOfficeDocxPlan at h
  by_cases h1 : ext = ".docx" ∧ de = true
  · rw [if_pos h1] at h
    cases docx with
    | none => cases h
    | some a =>
        dsimp only at h
        by_cases hb : (a.has_complex_tables || decide (a.image_count > 3) ||
            (decide (a.table_count > 3) && decide ((fs : ℚ) > mkRat (5 * 1024 * 1024) 2))) = true
        · rw [if_pos hb] at h
          cases h
          rfl
        · rw [if_neg hb] at h
          cases h
  · rw [if_neg h1] at h
    cases h

/-- The Office branch only ever selects docling or markitdown. -/
theorem triageOffice_engine (s : Settings) (ext : String) (de : Bool)
    (docx : Option DocxAnalysis) (statSize : Option ℕ) :
    (triageOffice s ext de docx statSize).engine = "docling" ∨
    (triageOffice s ext de docx statSize).engine = "markitdown" := by
  cases hdp : triageOfficeDocxPlan ext de docx (statSize.getD 0) with
  | some p =>
      left
      unfold triageOffice
      simp only [hdp]
      exact triageOfficeDocxPlan_engine ext de docx (statSize.getD 0) p hdp
  | none =>
      unfold triageOffice
      simp only [hdp]
      split_ifs <;> simp

/-- The downgrade pass either keeps the engine or replaces it with a fast
engine. -/
theorem applyDowngrade_engine_cases (ext : String) (de : Bool) (p : TriagePlan) :
    (applyDowngrade ext de p).engine = p.engine ∨
    (applyDowngrade ext de p).engine = "fast_pdf" ∨
    (applyDowngrade ext de p).engine = "markitdown" := by
  unfold applyDowngrade
  split_ifs <;> simp

/-- C4: the triage plan's engine is `unsupported` exactly when the
effective extension classifies the file as an image, regardless of
advanced-engine availability. -/
theorem C4_unsupported_iff_image (s : Settings) (f : FileInput) (arg : Option Bool)
    (w : TriageWorld) :
    (triage s f arg w).engine = "unsupported" ↔ effectiveExt f ∈ IMAGE_EXTENSIONS := by
  rw [show triage s f arg w = applyDowngrade (effectiveExt f) (doclingEnabledOf s arg)
      (triageCore s (effectiveExt f) (doclingEnabledOf s arg) w) from rfl]
  by_cases himg : effectiveExt f ∈ IMAGE_EXTENSIONS
  · refine iff_of_true ?_ himg
    have hcore : triageCore s (effectiveExt f) (doclingEnabledOf s arg) w
        = triageImage (effectiveExt f) := by
      unfold triageCore; rw [if_pos himg]
    rw [hcore]
    unfold applyDowngrade
    rw [if_neg]
    · rfl
    · intro hcon
      simp [triageImage] at hcon
  · refine iff_of_false ?_ himg
    have hrange : (triageCore s (effectiveExt f) (doclingEnabledOf s arg) w).engine = "docling" ∨
        (triageCore s (effectiveExt f) (doclingEnabledOf s arg) w).engine = "fast_pdf" ∨
        (triageCore s (effectiveExt f) (doclingEnabledOf s arg) w).engine = "markitdown" := by
      unfold triageCore
      rw [if_neg himg]
      split_ifs with h1 h2 h3
      · rcases triagePdf_engine s (effectiveExt f) (doclingEnabledOf s arg) w.pdf with h | h
        · exact Or.inl h
        · exact Or.inr (Or.inl h)
      · rcases triageOffice_engine s (effectiveExt f) (doclingEnabledOf s arg) w.docx w.statSize
          with h | h
        · exact Or.inl h
        · exact Or.inr (Or.inr h)
      · exact Or.inr (Or.inr rfl)
      · exact Or.inr (Or.inr rfl)
    rcases applyDowngrade_engine_cases (effectiveExt f) (doclingEnabledOf s arg)
      (triageCore s (effectiveExt f) (doclingEnabledOf s arg) w) with h | h | h
    · rw [h]; rcases hrange with h' | h' | h' <;> rw [h'] <;> simp
    · rw [h]; simp
    · rw [h]; simp

/-- C2 (amended): when the advanced engine is unavailable the final
plan's engine is never docling; a plan whose initial decision was docling
is replaced by fast_pdf for PDF extensions and markitdown otherwise, with
needs_ocr, needs_layout and complexity preserved, and with the reason
REPLACED by a downgrade note naming the original engine and the fallback
target (the original reason is discarded, not appended to); a plan that
did not choose docling passes through unchanged. -/
theorem C2_downgrade_replaces (s : Settings) (f : FileInput) (arg : Option Bool)
    (w : TriageWorld) (hde : doclingEnabledOf s arg = false) :
    (triage s f arg w).engine ≠ "docling" ∧
    ((triageCore s (effectiveExt f) false w).engine = "docling" →
      (triage s f arg w).needs_ocr = (triageCore s (effectiveExt f) false w).needs_ocr ∧
      (triage s f arg w).needs_layout = (triageCore s (effectiveExt f) false w).needs_layout ∧
      (triage s f arg w).complexity = (triageCore s (effectiveExt f) false w).complexity ∧
      (if effectiveExt f ∈ PDF_EXTENSIONS then
        (triage s f arg w).engine = "fast_pdf" ∧
        (triage s f arg w).reason = "Docling disabled, falling back from docling to fast_pdf"
       else
        (triage s f arg w).engine = "markitdown" ∧
        (triage s f arg w).reason = "Docling disabled, falling back from docling to markitdown")) ∧
    ((triageCore s (effectiveExt f) false w).engine ≠ "docling" →
      triage s f arg w = triageCore s (effectiveExt f) false w) := by
  have htr : triage s f arg w =
      applyDowngrade (effectiveExt f) false (triageCore s (effectiveExt f) false w) := by
    rw [show triage s f arg w = applyDowngrade (effectiveExt f) (doclingEnabledOf s arg)
        (triageCore s (effectiveExt f) (doclingEnabledOf s arg) w) from rfl, hde]
  rw [htr]
  by_cases hp : (triageCore s (effectiveExt f) false w).engine = "docling"
  · refine ⟨?_, ?_, fun hne => absurd hp hne⟩
    · unfold applyDowngrade
      rw [if_pos ⟨by simp, hp⟩]
      split_ifs <;> simp
    · intro _
      unfold applyDowngrade
      rw [if_pos ⟨by simp, hp⟩]
      by_cases hpdf : effectiveExt f ∈ PDF_EXTENSIONS
      · rw [if_pos hpdf, if_pos hpdf]
        refine ⟨rfl, rfl, rfl, rfl, ?_⟩
        rw [hp]
        rfl
      · rw [if_neg hpdf, if_neg hpdf]
        refine ⟨rfl, rfl, rfl, rfl, ?_⟩
        rw [hp]
        rfl
  · have hid : applyDowngrade (effectiveExt f) false (triageCore s (effectiveExt f) false w)
        = triageCore s (effectiveExt f) false w := by
      unfold applyDowngrade
      rw [if_neg (fun hcon => hp hcon.2)]
    rw [hid]
    exact ⟨hp, fun hcon => absurd hcon hp, fun _ => rfl⟩

/-- C2 counterexample: for a scanned PDF with Docling disabled, the
original decision chose docling and the downgraded plan keeps its flags,
but the final reason is the bare downgrade note: the original reason is
not contained in it, so no note was appended to the original reason. -/
theorem C2_downgrade_counterexample :
    (triageCore sampleSettings ".pdf" false scanWorld).engine = "docling" ∧
    (triage sampleSettings pdfFile (some false) scanWorld).engine = "fast_pdf" ∧
    (triage sampleSettings pdfFile (some false) scanWorld).needs_ocr =
      (triageCore sampleSettings ".pdf" false scanWorld).needs_ocr ∧
    (triage sampleSettings pdfFile (some false) scanWorld).complexity =
      (triageCore sampleSettings ".pdf" false scanWorld).complexity ∧
    (triageCore sampleSettings ".pdf" false scanWorld).reason =
      "PDF needs OCR (avg 20 chars/page)" ∧
    (triage sampleSettings pdfFile (some false) scanWorld).reason =
      "Docling disabled, falling back from docling to fast_pdf" ∧
    containsSub (triageCore sampleSettings ".pdf" false scanWorld).reason.data
      (triage sampleSettings pdfFile (some false) scanWorld).reason.data = false := by
  decide

/-- C2 witness: the amended downgrade law applied to the scanned-PDF run
with Docling disabled. -/
theorem C2_downgrade_replaces_witness :
    (triage sampleSettings pdfFile (some false) scanWorld).engine ≠ "docling" ∧
    (triage sampleSettings pdfFile (some false) scanWorld).needs_ocr =
      (triageCore sampleSettings (effectiveExt pdfFile) false scanWorld).needs_ocr ∧
    (triage sampleSettings pdfFile (some false) scanWorld).complexity =
      (triageCore sampleSettings (effectiveExt pdfFile) false scanWorld).complexity :=
  have h := C2_downgrade_replaces sampleSettings pdfFile (some false) scanWorld rfl
  ⟨h.1, (h.2.1 (by decide)).1, (h.2.1 (by decide)).2.2.1⟩

/-- C1 (code evaluation): when the effective engine is docling and the
docling backend returns empty content, the dispatcher responds with the
HTTP 422 empty-extraction error — it performs no fast-engine retry and
records no fallback metadata, because the route has no fallback path. -/
theorem C1_no_fallback_on_empty_docling (plan : TriagePlan) (ep : Option String)
    (b : Backends) (fn up rid : String)
    (dm : String → String → List (String × String))
    (hsel : selectedEngine plan ep = "docling")
    (hempty : (b.docling plan.docling_params).content = "") :
    extractRoute plan ep b fn up rid dm =
      .clientError 422 ("No text could be extracted from this file. Request ID: " ++ rid) := by
  unfold extractRoute
  rw [hsel, if_neg (by decide : ¬("docling" : String) = "unsupported")]
  unfold backendFor
  rw [if_neg (by decide : ¬("docling" : String) = "fast_pdf"), if_pos rfl]
  unfold respondWith
  rw [if_pos hempty]

/-- C1 witness: the scanned-PDF plan routes to docling; with the backend
failing as in the repository's fallback test, the route returns 422
instead of falling back to fast_pdf. -/
theorem C1_no_fallback_on_empty_docling_witness :
    extractRoute scanPlan none failBackends "test.pdf" "/tmp/test.pdf" "rid" noMeta =
      .clientError 422 ("No text could be extracted from this file. Request ID: " ++ "rid") :=
  C1_no_fallback_on_empty_docling scanPlan none failBackends "test.pdf" "/tmp/test.pdf" "rid"
    noMeta (by decide) rfl

/-- C6 (amended): a present, non-"auto" engine override is the effective
engine and the plan's engine choice is bypassed; however the extraction
outcome can still depend on the plan through its docling_params
(forwarded to the advanced backend) and, for an "unsupported" override,
through the plan's file_type in the error detail.  Two runs under the
same non-"auto", non-"unsupported" override whose plans agree on
docling_params produce identical extraction outcomes. -/
theorem C6_override_bypasses_engine_choice (e : String) (p1 p2 : TriagePlan)
    (b : Backends) (fn up rid : String)
    (dm : String → String → List (String × String))
    (hne : e ≠ "") (hna : e ≠ "auto") (hnu : e ≠ "unsupported")
    (hdp : p1.docling_params = p2.docling_params) :
    selectedEngine p1 (some e) = e ∧
    sameExtraction (extractRoute p1 (some e) b fn up rid dm)
      (extractRoute p2 (some e) b fn up rid dm) = true := by
  have hsel1 : selectedEngine p1 (some e) = e := by
    unfold selectedEngine
    dsimp only
    rw [if_pos ⟨hne, hna⟩]
  have hsel2 : selectedEngine p2 (some e) = e := by
    unfold selectedEngine
    dsimp only
    rw [if_pos ⟨hne, hna⟩]
  refine ⟨hsel1, ?_⟩
  unfold extractRoute
  rw [hsel1, hsel2, if_neg hnu, if_neg hnu]
  have hb : backendFor e p1 b = backendFor e p2 b := by
    unfold backendFor; rw [hdp]
  rw [hb]
  unfold respondWith
  by_cases hc : (backendFor e p2 b).content = ""
  · rw [if_pos hc, if_pos hc]; simp [sameExtraction]
  · rw [if_neg hc, if_neg hc]; simp [sameExtraction]

/-- C6 counterexample: two runs under the explicit "docling" override
that differ only in the triage outcome (the simple-PDF plan versus the
scanned-PDF plan) produce different extraction outcomes: the plans'
docling_params flow into the advanced backend and flip the reported
ocr_used flag, so a non-"auto" override does not make the extraction
outcome independent of the triage step. -/
theorem C6_override_counterexample :
    selectedEngine simplePlan (some "docling") = "docling" ∧
    selectedEngine scanPlan (some "docling") = "docling" ∧
    simplePlan.docling_params ≠ scanPlan.docling_params ∧
    routeOcrUsed (extractRoute simplePlan (some "docling") cBackends "f.pdf" "/u/f.pdf" "rid" noMeta)
      = some false ∧
    routeOcrUsed (extractRoute scanPlan (some "docling") cBackends "f.pdf" "/u/f.pdf" "rid" noMeta)
      = some true := by
  decide

/-- C6 witness: under the "fast_pdf" override, a text plan and an image
plan (which agree on docling_params) yield the override as effective
engine and identical extraction outcomes despite different plan engines. -/
theorem C6_override_bypasses_engine_choice_witness :
    selectedEngine textPlan (some "fast_pdf") = "fast_pdf" ∧
    sameExtraction (extractRoute textPlan (some "fast_pdf") cBackends "a.txt" "/u/a.txt" "rid" noMeta)
      (extractRoute imagePlan (some "fast_pdf") cBackends "a.txt" "/u/a.txt" "rid" noMeta) = true :=
  C6_override_bypasses_engine_choice "fast_pdf" textPlan imagePlan cBackends "a.txt" "/u/a.txt"
    "rid" noMeta (by decide) (by decide) (by decide) (by decide)

/-- Evaluation of `detectEndpoint` past the cache and URL-marker steps. -/
theorem detectEndpoint_nocache (url : String) (w : DetectWorld) (cache : Option String)
    (hf : optTruthy cache = false)
    (ha : containsSub "v1alpha".data (pyLower url).data = false) :
    detectEndpoint url w cache =
      (match openapiSelectedEndpoint w with
       | some e => (some e, some e, 1)
       | none =>
          match (probeLoop w.probe ["/v1/convert/file", "/v1alpha/convert/file"]).1 with
          | some e =>
              (some e, some e, 1 + (probeLoop w.probe ["/v1/convert/file", "/v1alpha/convert/file"]).2)
          | none =>
              (none, cache, 1 + (probeLoop w.probe ["/v1/convert/file", "/v1alpha/convert/file"]).2)) := by
  unfold detectEndpoint
  rw [if_neg (by simp [hf]), if_neg (by simp [ha])]

/-- A first probe completing with a non-404 status is accepted. -/
theorem probeLoop_first_ok (probe : String → Option ℕ) (k : ℕ)
    (h1 : probe "/v1/convert/file" = some k) (hk : k ≠ 404) :
    probeLoop probe ["/v1/convert/file", "/v1alpha/convert/file"] =
      (some "/v1/convert/file", 1) := by
  unfold probeLoop
  rw [h1]
  dsimp only
  rw [if_pos hk]

/-- A raised or 404 first probe falls through to the second candidate. -/
theorem probeLoop_first_skipped (probe : String → Option ℕ)
    (h1 : probe "/v1/convert/file" = none ∨ probe "/v1/convert/file" = some 404) :
    probeLoop probe ["/v1/convert/file", "/v1alpha/convert/file"] =
      ((probeLoop probe ["/v1alpha/convert/file"]).1,
        (probeLoop probe ["/v1alpha/convert/file"]).2 + 1) := by
  rcases h1 with h1 | h1 <;> (unfold probeLoop; rw [h1]; rfl)

/-- A second probe completing with a non-404 status is accepted. -/
theorem probeLoop_second_ok (probe : String → Option ℕ) (m : ℕ)
    (h2 : probe "/v1alpha/convert/file" = some m) (hm : m ≠ 404) :
    probeLoop probe ["/v1alpha/convert/file"] = (some "/v1alpha/convert/file", 1) := by
  unfold probeLoop
  rw [h2]
  dsimp only
  rw [if_pos hm]

/-- A raised or 404 second probe exhausts the candidates. -/
theorem probeLoop_second_skipped (probe : String → Option ℕ)
    (h2 : probe "/v1alpha/convert/file" = none ∨ probe "/v1alpha/convert/file" = some 404) :
    probeLoop probe ["/v1alpha/convert/file"] = (none, 1) := by
  rcases h2 with h2 | h2 <;> (unfold probeLoop; rw [h2]; rfl)

/-- A probe loop can only accept one of the candidates it was given. -/
theorem probeLoop_mem (probe : String → Option ℕ) :
    ∀ (l : List String) (e : String), (probeLoop probe l).1 = some e → e ∈ l := by
  intro l
  induction l with
  | nil => intro e h; cases h
  | cons x xs ih =>
      intro e h
      unfold probeLoop at h
      cases hp : probe x with
      | none =>
          rw [hp] at h
          dsimp only at h
          exact List.mem_cons_of_mem x (ih e h)
      | some code =>
          rw [hp] at h
          dsimp only at h
          by_cases hcode : code ≠ 404
          · rw [if_pos hcode] at h
            have : x = e := Option.some.inj h
            subst this
            exact List.mem_cons_self x xs
          · rw [if_neg hcode] at h
            exact List.mem_cons_of_mem x (ih e h)

/-- The OpenAPI selection yields only known endpoints. -/
theorem openapiSelected_cases (w : DetectWorld) (e : String)
    (h : openapiSelectedEndpoint w = some e) :
    e = "/v1/convert/file" ∨ e = "/v1alpha/convert/file" := by
  unfold openapiSelectedEndpoint at h
  cases ho : w.openapi with
  | none => rw [ho] at h; cases h
  | some pr =>
      obtain ⟨st, ps⟩ := pr
      rw [ho] at h
      dsimp only at h
      split_ifs at h
      · exact Or.inl (Option.some.inj h).symm
      · exact Or.inr (Option.some.inj h).symm

/-- C7: endpoint detection order and process-lifetime caching: a truthy
cache is returned with no network call; else a version marker in the
base URL selects the alpha shape with no network call; else the OpenAPI
self-description is queried (one request) and a known path is used when
found; else the candidates are probed in order and the first probe that
completes with a status other than 404 is accepted; a successful
detection writes exactly the returned (known, non-empty) endpoint to the
cache, so every subsequent call returns it with no further probing, and
a failed detection leaves the cache unchanged. -/
theorem C7_detect_endpoint_contract (url : String) (w : DetectWorld) (cache : Option String) :
    (optTruthy cache = true → detectEndpoint url w cache = (cache, cache, 0)) ∧
    (optTruthy cache = false →
      containsSub "v1alpha".data (pyLower url).data = true →
      detectEndpoint url w cache =
        (some "/v1alpha/convert/file", some "/v1alpha/convert/file", 0)) ∧
    (∀ paths, optTruthy cache = false →
      containsSub "v1alpha".data (pyLower url).data = false →
      w.openapi = some (200, paths) → "/v1/convert/file" ∈ paths →
      detectEndpoint url w cache = (some "/v1/convert/file", some "/v1/convert/file", 1)) ∧
    (∀ paths, optTruthy cache = false →
      containsSub "v1alpha".data (pyLower url).data = false →
      w.openapi = some (200, paths) → "/v1/convert/file" ∉ paths →
      "/v1alpha/convert/file" ∈ paths →
      detectEndpoint url w cache =
        (some "/v1alpha/convert/file", some "/v1alpha/convert/file", 1)) ∧
    (optTruthy cache = false →
      containsSub "v1alpha".data (pyLower url).data = false →
      openapiSelectedEndpoint w = none →
      (∀ k, w.probe "/v1/convert/file" = some k → k ≠ 404 →
        detectEndpoint url w cache = (some "/v1/convert/file", some "/v1/convert/file", 2)) ∧
      ((w.probe "/v1/convert/file" = none ∨ w.probe "/v1/convert/file" = some 404) →
        (∀ m, w.probe "/v1alpha/convert/file" = some m → m ≠ 404 →
          detectEndpoint url w cache =
            (some "/v1alpha/convert/file", some "/v1alpha/convert/file", 3)) ∧
        ((w.probe "/v1alpha/convert/file" = none ∨ w.probe "/v1alpha/convert/file" = some 404) →
          detectEndpoint url w cache = (none, cache, 3)))) ∧
    (optTruthy cache = false → ∀ r, (detectEndpoint url w cache).1 = some r →
      ((detectEndpoint url w cache).2.1 = some r ∧ optTruthy (some r) = true)) ∧
    ((detectEndpoint url w cache).1 = none → (detectEndpoint url w cache).2.1 = cache) := by
  refine ⟨?_, ?_, ?_, ?_, ?_, ?_, ?_⟩
  · intro ht
    unfold detectEndpoint
    rw [if_pos ht]
  · intro hf halpha
    unfold detectEndpoint
    rw [if_neg (by simp [hf]), if_pos halpha]
  · intro paths hf hna hopen hmem
    have ho : openapiSelectedEndpoint w = some "/v1/convert/file" := by
      unfold openapiSelectedEndpoint
      rw [hopen]
      dsimp only
      rw [if_pos rfl, if_pos hmem]
    rw [detectEndpoint_nocache url w cache hf hna, ho]
  · intro paths hf hna hopen hnot hmem
    have ho : openapiSelectedEndpoint w = some "/v1alpha/convert/file" := by
      unfold openapiSelectedEndpoint
      rw [hopen]
      dsimp only
      rw [if_pos rfl, if_neg hnot, if_pos hmem]
    rw [detectEndpoint_nocache url w cache hf hna, ho]
  · intro hf hna ho
    refine ⟨?_, ?_⟩
    · intro k hk hk404
      rw [detectEndpoint_nocache url w cache hf hna, ho]
      dsimp only
      rw [probeLoop_first_ok w.probe k hk hk404]
      rfl
    · intro h1
      refine ⟨?_, ?_⟩
      · intro m hm hm404
        rw [detectEndpoint_nocache url w cache hf hna, ho]
        dsimp only
        rw [probeLoop_first_skipped w.probe h1, probeLoop_second_ok w.probe m hm hm404]
        rfl
      · intro h2
        rw [detectEndpoint_nocache url w cache hf hna, ho]
        dsimp only
        rw [probeLoop_first_skipped w.probe h1, probeLoop_second_skipped w.probe h2]
        rfl
  · intro hf r hr
    by_cases halpha : containsSub "v1alpha".data (pyLower url).data = true
    · have hd : detectEndpoint url w cache =
          (some "/v1alpha/convert/file", some "/v1alpha/convert/file", 0) := by
        unfold detectEndpoint
        rw [if_neg (by simp [hf]), if_pos halpha]
      rw [hd] at hr ⊢
      have hre : "/v1alpha/convert/file" = r := Option.some.inj hr
      subst hre
      exact ⟨rfl, by decide⟩
    · have halpha' : containsSub "v1alpha".data (pyLower url).data = false := by
        revert halpha
        cases containsSub "v1alpha".data (pyLower url).data <;> simp
      rw [detectEndpoint_nocache url w cache hf halpha'] at hr ⊢
      cases ho : openapiSelectedEndpoint w with
      | some e =>
          rw [ho] at hr
          dsimp only at hr ⊢
          have hre : e = r := Option.some.inj hr
          subst hre
          refine ⟨rfl, ?_⟩
          rcases openapiSelected_cases w e ho with h | h <;> subst h <;> decide
      | none =>
          rw [ho] at hr
          dsimp only at hr ⊢
          cases hpl : (probeLoop w.probe ["/v1/convert/file", "/v1alpha/convert/file"]).1 with
          | none => rw [hpl] at hr; simp at hr
          | some e =>
              rw [hpl] at hr
              dsimp only at hr ⊢
              have hre : e = r := Option.some.inj hr
              subst hre
              refine ⟨rfl, ?_⟩
              have hmem := probeLoop_mem w.probe ["/v1/convert/file", "/v1alpha/convert/file"] e hpl
              simp only [List.mem_cons, List.mem_singleton] at hmem
              rcases hmem with h | h | h
              · subst h; decide
              · subst h; decide
              · simp at h
  · intro hnone
    by_cases ht : optTruthy cache = true
    · have hd : detectEndpoint url w cache = (cache, cache, 0) := by
        unfold detectEndpoint
        rw [if_pos ht]
      rw [hd]
    · have ht' : optTruthy cache = false := by
        revert ht
        cases optTruthy cache <;> simp
      by_cases halpha : containsSub "v1alpha".data (pyLower url).data = true
      · have hd : detectEndpoint url w cache =
            (some "/v1alpha/convert/file", some "/v1alpha/convert/file", 0) := by
          unfold detectEndpoint
          rw [if_neg (by simp [ht']), if_pos halpha]
        rw [hd] at hnone
        simp at hnone
      · have halpha' : containsSub "v1alpha".data (pyLower url).data = false := by
          revert halpha
          cases containsSub "v1alpha".data (pyLower url).data <;> simp
        rw [detectEndpoint_nocache url w cache ht' halpha'] at hnone ⊢
        cases ho : openapiSelectedEndpoint w with
        | some e => rw [ho] at hnone; simp at hnone
        | none =>
            rw [ho] at hnone
            dsimp only at hnone ⊢
            cases hpl : (probeLoop w.probe ["/v1/convert/file", "/v1alpha/convert/file"]).1 with
            | some e => rw [hpl] at hnone; simp at hnone
            | none => rfl

/-- C7 witness: with an empty cache, no version marker in the URL, a
raising OpenAPI query, a 404 first probe and a 200 second probe, the
detection accepts the alpha endpoint after three requests and caches it. -/
theorem C7_detect_endpoint_contract_witness :
    detectEndpoint "http://docling:8080" cDetectWorld none =
      (some "/v1alpha/convert/file", some "/v1alpha/convert/file", 3) :=
  (((C7_detect_endpoint_contract "http://docling:8080" cDetectWorld none).2.2.2.2.1
      (by decide) (by decide) rfl).2 (Or.inr (by decide))).1 200 (by decide) (by decide)
